import Mathlib

/-!
Verification of the client-information gathering script (src/index.js).

The two algorithmic components of the source are embedded shallowly:

* the user-agent classifier (`getBrowserName`, `getBrowserVersion`,
  `getEngineName`, `getEngineVersion`, `getOperatingSystem`, `getOSVersion`,
  `getArchitecture`), a pure function of the UA string; and
* the network-info resolver (`gatherNetworkInfo`), a linear first-success
  fallback over an ordered list of IP-lookup services.

User-agent strings are modelled as `List Char` (JavaScript strings are
sequences of code units; every string appearing here is ASCII, where the two
views agree).  `String.prototype.includes` is `jsIncludes`; the regular
expressions used by the source are all of the form `literal(capture)` with a
digit/separator capture group, so they are embedded as a leftmost-match scan
(`firstMatch`) of a literal-anchored capture (`capAt`); JavaScript regex
semantics (leftmost position wins, alternation tried left-to-right, greedy
`\d+` followed by a non-digit separator never backtracks) are preserved.
-/

/-- JavaScript `\d`: exactly the ASCII digits. -/
def isDigitChar (c : Char) : Bool :=
  '0' ≤ c && c ≤ '9'

/-- `String.prototype.includes`: does `sub` occur as a contiguous substring? -/
def jsIncludes (sub : List Char) : List Char → Bool
  | [] => sub.isEmpty
  | c :: t => sub.isPrefixOf (c :: t) || jsIncludes sub t

/-- Leftmost regex match: try the matcher at every position, left to right,
returning the first capture. -/
def firstMatch (m : List Char → Option (List Char)) : List Char → Option (List Char)
  | [] => m []
  | c :: rest =>
    match m (c :: rest) with
    | some v => some v
    | none => firstMatch m rest

/-- Anchored match of a pattern `lit(cap)` at the current position: the
literal must be a prefix here, and the capture runs on what follows it. -/
def capAt (lit : List Char) (cap : List Char → Option (List Char)) (s : List Char) :
    Option (List Char) :=
  if lit.isPrefixOf s then cap (s.drop lit.length) else none

/-- Capture for `(\d+\.\d+)` (greedy digit runs; `.` is not a digit, so the
greedy run never backtracks). -/
def numDotNum (s : List Char) : Option (List Char) :=
  let d1 := s.takeWhile isDigitChar
  let r1 := s.dropWhile isDigitChar
  if d1.isEmpty then none
  else
    match r1 with
    | '.' :: r2 =>
      let d2 := r2.takeWhile isDigitChar
      if d2.isEmpty then none else some (d1 ++ '.' :: d2)
    | _ => none

/-- Capture for `(\d+_\d+)` (the iOS version pattern). -/
def numUnderNum (s : List Char) : Option (List Char) :=
  let d1 := s.takeWhile isDigitChar
  let r1 := s.dropWhile isDigitChar
  if d1.isEmpty then none
  else
    match r1 with
    | '_' :: r2 =>
      let d2 := r2.takeWhile isDigitChar
      if d2.isEmpty then none else some (d1 ++ '_' :: d2)
    | _ => none

/-- Capture for `(\d+[._]\d+[._]\d+)` (the macOS version pattern). -/
def numTriple (s : List Char) : Option (List Char) :=
  let d1 := s.takeWhile isDigitChar
  let r1 := s.dropWhile isDigitChar
  if d1.isEmpty then none
  else
    match r1 with
    | c1 :: r2 =>
      if c1 == '.' || c1 == '_' then
        let d2 := r2.takeWhile isDigitChar
        let r3 := r2.dropWhile isDigitChar
        if d2.isEmpty then none
        else
          match r3 with
          | c2 :: r4 =>
            if c2 == '.' || c2 == '_' then
              let d3 := r4.takeWhile isDigitChar
              if d3.isEmpty then none else some (d1 ++ c1 :: (d2 ++ c2 :: d3))
            else none
          | [] => none
      else none
    | [] => none

/-- Capture for `(\d+)` (the `Gecko/(\d+)` pattern). -/
def numOnly (s : List Char) : Option (List Char) :=
  let d := s.takeWhile isDigitChar
  if d.isEmpty then none else some d

/-- `ua.match(/lit(cap)/)` restricted to the capture group. -/
def matchUA (lit : List Char) (cap : List Char → Option (List Char)) (ua : List Char) :
    Option (List Char) :=
  firstMatch (capAt lit cap) ua

/-- `ua.match(/(?:Opera|OPR)\/(\d+\.\d+)/)`: at each position the alternation
tries `Opera/` first, then `OPR/`; leftmost position still wins. -/
def matchOpera (ua : List Char) : Option (List Char) :=
  firstMatch
    (fun s =>
      match capAt "Opera/".data numDotNum s with
      | some v => some v
      | none => capAt "OPR/".data numDotNum s)
    ua

/-- `match[1].replace(/_/g, '.')`. -/
def underscoresToDots (l : List Char) : List Char :=
  l.map (fun c => if c = '_' then '.' else c)

/-- the JavaScript idiom: the capture when the match succeeded, else "Unknown". -/
def optVer : Option (List Char) → String
  | some v => String.mk v
  | none => "Unknown"

/-- src/index.js `getBrowserName(ua)` (lines 224-233): ordered
first-match-wins substring tests. -/
def getBrowserName (ua : List Char) : String :=
  if jsIncludes "Firefox".data ua then "Firefox"
  else if jsIncludes "Chrome".data ua && !jsIncludes "Chromium".data ua then "Chrome"
  else if jsIncludes "Chromium".data ua then "Chromium"
  else if jsIncludes "Safari".data ua && !jsIncludes "Chrome".data ua then "Safari"
  else if jsIncludes "Edge".data ua then "Edge"
  else if jsIncludes "Opera".data ua || jsIncludes "OPR".data ua then "Opera"
  else if jsIncludes "Trident".data ua then "Internet Explorer"
  else "Unknown"

/-- src/index.js `getBrowserVersion(ua)` (lines 235-260): switch on the
browser name, one capture pattern per known name, default "Unknown". -/
def getBrowserVersion (ua : List Char) : String :=
  let browserName := getBrowserName ua
  if browserName = "Chrome" then optVer (matchUA "Chrome/".data numDotNum ua)
  else if browserName = "Firefox" then optVer (matchUA "Firefox/".data numDotNum ua)
  else if browserName = "Safari" then optVer (matchUA "Version/".data numDotNum ua)
  else if browserName = "Edge" then optVer (matchUA "Edge/".data numDotNum ua)
  else if browserName = "Opera" then optVer (matchOpera ua)
  else "Unknown"

/-- src/index.js `getEngineName(ua)` (lines 262-269). -/
def getEngineName (ua : List Char) : String :=
  if jsIncludes "Blink".data ua then "Blink"
  else if jsIncludes "WebKit".data ua then "WebKit"
  else if jsIncludes "Gecko".data ua then "Gecko"
  else if jsIncludes "Trident".data ua then "Trident"
  else if jsIncludes "EdgeHTML".data ua then "EdgeHTML"
  else "Unknown"

/-- src/index.js `getEngineVersion(ua)` (lines 271-279). -/
def getEngineVersion (ua : List Char) : String :=
  match matchUA "WebKit/".data numDotNum ua with
  | some v => String.mk v
  | none =>
    match matchUA "Gecko/".data numOnly ua with
    | some v => String.mk v
    | none => "Unknown"

/-- src/index.js `getOperatingSystem(ua)` (lines 281-293). -/
def getOperatingSystem (ua : List Char) : String :=
  if jsIncludes "Windows NT 10.0".data ua then "Windows 10/11"
  else if jsIncludes "Windows NT 6.3".data ua then "Windows 8.1"
  else if jsIncludes "Windows NT 6.2".data ua then "Windows 8"
  else if jsIncludes "Windows NT 6.1".data ua then "Windows 7"
  else if jsIncludes "Windows".data ua then "Windows"
  else if jsIncludes "Mac OS X".data ua then "macOS"
  else if jsIncludes "Linux".data ua then "Linux"
  else if jsIncludes "Android".data ua then "Android"
  else if jsIncludes "iOS".data ua then "iOS"
  else if jsIncludes "iPad".data ua then "iPadOS"
  else "Unknown"

/-- src/index.js `getOSVersion(ua)` (lines 295-315): four capture patterns in
order; the macOS and iOS captures have underscores replaced by dots. -/
def getOSVersion (ua : List Char) : String :=
  match matchUA "Windows NT ".data numDotNum ua with
  | some v => String.mk v
  | none =>
    match matchUA "Mac OS X ".data numTriple ua with
    | some v => String.mk (underscoresToDots v)
    | none =>
      match matchUA "Android ".data numDotNum ua with
      | some v => String.mk v
      | none =>
        match matchUA "OS ".data numUnderNum ua with
        | some v => String.mk (underscoresToDots v)
        | none => "Unknown"

/-- src/index.js `getArchitecture(ua)` (lines 317-322). -/
def getArchitecture (ua : List Char) : String :=
  if jsIncludes "WOW64".data ua || jsIncludes "Win64".data ua
      || jsIncludes "x86_64".data ua then "64-bit"
  else if jsIncludes "ARM".data ua then "ARM"
  else if jsIncludes "x86".data ua then "32-bit"
  else "Unknown"

/-- The seven classification fields computed from the user-agent string. -/
structure Classification where
  browserName : String
  browserVersion : String
  engineName : String
  engineVersion : String
  operatingSystem : String
  osVersion : String
  architecture : String
deriving DecidableEq, Repr

/-- The full classifier: the tuple of the seven helper results, exactly as
`gatherBrowserInfo`/`gatherSystemInfo` compute them from `navigator.userAgent`. -/
def classify (ua : List Char) : Classification :=
  { browserName := getBrowserName ua
    browserVersion := getBrowserVersion ua
    engineName := getEngineName ua
    engineVersion := getEngineVersion ua
    operatingSystem := getOperatingSystem ua
    osVersion := getOSVersion ua
    architecture := getArchitecture ua }

/-- The ambient `navigator` fields the gatherer reads.  Only `userAgent`
feeds the classifier; the remaining fields are copied verbatim elsewhere. -/
structure NavigatorSnapshot where
  userAgent : List Char
  vendor : String
  platform : String
  language : String
  cookieEnabled : Bool
deriving DecidableEq

/-- Classification as performed by the gatherer: a function of the
navigator snapshot that reads only its `userAgent` field. -/
def classifyNavigator (nav : NavigatorSnapshot) : Classification :=
  classify nav.userAgent

/-- JSON value of one of the keys the resolver reads from a service response;
`none` models an absent key.  (Only string-valued keys occur in these services
schemas, so values are modelled as strings.) -/
abbrev JsonField := Option String

/-- The keys of a parsed service response that `gatherNetworkInfo` reads.
Defaults model keys absent from the response object. -/
structure IpJson where
  ip : JsonField := none
  origin : JsonField := none
  query : JsonField := none
  country : JsonField := none
  city : JsonField := none
  region : JsonField := none
  org : JsonField := none
  as : JsonField := none
deriving DecidableEq, Repr

/-- Result of `await response.json()`: either the body parses to an object or
the promise rejects (malformed body). -/
inductive JsonBody where
  | malformed
  | obj (o : IpJson)
deriving DecidableEq, Repr

/-- Observable behaviour of one service for this run.  `reject` is a rejected
`fetch` promise (network error, CORS failure, or an environment-imposed
timeout — `fetch` itself rejects in all those cases and the reason string is
whatever the environment reports).  `response` is a resolved `fetch`: note
that `fetch` resolves even for non-success HTTP statuses, so the status code
is part of the response but never consulted by the source. -/
inductive FetchOutcome where
  | reject (reason : String)
  | response (status : Nat) (body : JsonBody)
deriving DecidableEq, Repr

/-- The body of the `try { ... } catch { continue }` around one service: the
attempt yields a parsed object unless `fetch` rejected or `.json()` threw.
The HTTP status is ignored, exactly as in the source. -/
def attemptService : FetchOutcome → Option IpJson
  | .reject _ => none
  | .response _ b =>
    match b with
    | .malformed => none
    | .obj o => some o

/-- JavaScript truthiness of a possibly-absent string value: absent (`undefined`)
and the empty string are falsy. -/
def jsTruthy : JsonField → Bool
  | none => false
  | some s => s != ""

/-- The source expression `data.ip || data.origin || data.query` with the
fallback "Unable to determine". -/
def publicIPOf (o : IpJson) : String :=
  if jsTruthy o.ip then o.ip.getD ""
  else if jsTruthy o.origin then o.origin.getD ""
  else if jsTruthy o.query then o.query.getD ""
  else "Unable to determine"

/-- The `this.data.network` record.  `error` is set only on the all-failed
path; `ipService` only on the success path. -/
structure NetworkData where
  publicIP : String
  ipService : Option String := none
  country : JsonField := none
  city : JsonField := none
  region : JsonField := none
  organization : JsonField := none
  autonomous_system : JsonField := none
  error : Option String := none
deriving DecidableEq, Repr

/-- The network record built from a successful service response
(src/index.js lines 189-200): base record plus the enrichment fields that are
truthy in the response. -/
def mkNetwork (service : String) (o : IpJson) : NetworkData :=
  { publicIP := publicIPOf o
    ipService := some service
    country := if jsTruthy o.country then o.country else none
    city := if jsTruthy o.city then o.city else none
    region := if jsTruthy o.region then o.region else none
    organization := if jsTruthy o.org then o.org else none
    autonomous_system := if jsTruthy o.as then o.as else none }

/-- The record assigned when every service failed (src/index.js lines 209-214). -/
def failureNetworkData : NetworkData :=
  { publicIP := "Unable to determine (CORS/Network restrictions)"
    error := some "All IP services failed" }

/-- src/index.js `gatherNetworkInfo` (lines 174-221), with the run of each
service in the configured list given by the paired `FetchOutcome`.  Returns
the final `this.data.network` record together with the trace of service URLs
actually fetched: the loop fetches each entry once in order, `break`s on the
first entry whose body parses, `continue`s past any entry whose attempt
throws, and falls through to the failure record when the list is exhausted. -/
def gatherNetworkInfo : List (String × FetchOutcome) → NetworkData × List String
  | [] => (failureNetworkData, [])
  | (url, fo) :: rest =>
    match attemptService fo with
    | some o => (mkNetwork url o, [url])
    | none => ((gatherNetworkInfo rest).1, url :: (gatherNetworkInfo rest).2)

/-- The service list hard-coded in src/index.js (lines 177-182). -/
def ipServices : List String :=
  ["https://api.ipify.org?format=json",
   "https://httpbin.org/ip",
   "https://api.myip.com",
   "https://ipapi.co/json/"]

/-- Is the first character (if any) an ASCII digit?  Used to state that a
greedy `\d+` run stops exactly at a context boundary. -/
def digitHead : List Char → Bool
  | [] => false
  | c :: _ => isDigitChar c

/-! Lemmas about `jsIncludes` and `firstMatch`. -/

lemma jsIncludes_of_pref {sub l : List Char} (h : sub <+: l) : jsIncludes sub l = true := by
  cases l with
  | nil =>
    have : sub = [] := List.prefix_nil.mp h
    simp [jsIncludes, this]
  | cons c t =>
    have : sub.isPrefixOf (c :: t) = true := List.isPrefixOf_iff_prefix.mpr h
    simp [jsIncludes, this]

lemma jsIncludes_append_left {sub l : List Char} (p : List Char)
    (h : jsIncludes sub l = true) : jsIncludes sub (p ++ l) = true := by
  induction p with
  | nil => simpa using h
  | cons c p ih => simp [jsIncludes, ih]

/-- A string that contains `sub` verbatim (with context `p` before and `t`
after) satisfies `jsIncludes sub`. -/
lemma jsIncludes_of_append (sub p t : List Char) :
    jsIncludes sub (p ++ (sub ++ t)) = true :=
  jsIncludes_append_left p (jsIncludes_of_pref (List.prefix_append sub t))

lemma jsIncludes_mono {sub₁ sub₂ : List Char} (hp : sub₁ <+: sub₂) :
    ∀ ua, jsIncludes sub₂ ua = true → jsIncludes sub₁ ua = true := by
  intro ua h
  induction ua with
  | nil =>
    simp only [jsIncludes, List.isEmpty_iff] at h ⊢
    subst h
    exact List.prefix_nil.mp hp
  | cons c t ih =>
    simp only [jsIncludes, Bool.or_eq_true] at h ⊢
    rcases h with h | h
    · exact Or.inl (List.isPrefixOf_iff_prefix.mpr (hp.trans (List.isPrefixOf_iff_prefix.mp h)))
    · exact Or.inr (ih h)

lemma jsIncludes_mono_false {sub₁ sub₂ : List Char} (hp : sub₁ <+: sub₂) {ua : List Char}
    (h : jsIncludes sub₁ ua = false) : jsIncludes sub₂ ua = false := by
  cases hb : jsIncludes sub₂ ua with
  | false => rfl
  | true => rw [jsIncludes_mono hp ua hb] at h; exact absurd h (by simp)

lemma firstMatch_cons_none {m : List Char → Option (List Char)} {c : Char}
    {rest : List Char} (h : m (c :: rest) = none) :
    firstMatch m (c :: rest) = firstMatch m rest := by
  simp [firstMatch, h]

lemma firstMatch_of_some {m : List Char → Option (List Char)} {t : List Char}
    {v : List Char} (h : m t = some v) : firstMatch m t = some v := by
  cases t with
  | nil => simpa [firstMatch] using h
  | cons c rest => simp [firstMatch, h]

/-- Leftmost matching skips any prefix on which the matcher fails. -/
lemma firstMatch_append_of_none (m : List Char → Option (List Char)) (p t : List Char)
    (h : ∀ i, i < p.length → m (List.drop i (p ++ t)) = none) :
    firstMatch m (p ++ t) = firstMatch m t := by
  induction p with
  | nil => rfl
  | cons c p ih =>
    have h0 : m (c :: (p ++ t)) = none := by simpa using h 0 (by simp)
    rw [List.cons_append, firstMatch_cons_none h0]
    exact ih (fun i hi => by simpa using h (i + 1) (by simpa using Nat.succ_lt_succ hi))

lemma capAt_none {lit : List Char} (cap : List Char → Option (List Char)) {s : List Char}
    (h : lit.isPrefixOf s = false) : capAt lit cap s = none := by
  simp [capAt, h]

/-- A literal-anchored pattern cannot match anywhere in a string that does not
contain the literal at all. -/
lemma firstMatch_capAt_none {lit : List Char} (cap : List Char → Option (List Char))
    {ua : List Char} (h : jsIncludes lit ua = false) :
    firstMatch (capAt lit cap) ua = none := by
  induction ua with
  | nil =>
    simp only [jsIncludes, List.isEmpty_iff] at h
    have : lit.isPrefixOf ([] : List Char) = false := by
      cases lit with
      | nil => simp at h
      | cons a as => rfl
    simp [firstMatch, capAt, this]
  | cons c t ih =>
    simp only [jsIncludes, Bool.or_eq_false_iff] at h
    rw [firstMatch_cons_none (by simp [capAt, h.1])]
    exact ih h.2

/-! Lemmas about greedy digit captures. -/

lemma takeWhile_digit_nil {s : List Char} (hs : digitHead s = false) :
    s.takeWhile isDigitChar = [] := by
  cases s with
  | nil => rfl
  | cons c t =>
    simp only [digitHead] at hs
    simp [List.takeWhile, hs]

lemma dropWhile_digit_id {s : List Char} (hs : digitHead s = false) :
    s.dropWhile isDigitChar = s := by
  cases s with
  | nil => rfl
  | cons c t =>
    simp only [digitHead] at hs
    simp [List.dropWhile, hs]

lemma takeWhile_digits_append {a : List Char} (r : List Char)
    (ha : ∀ c ∈ a, isDigitChar c = true) :
    (a ++ r).takeWhile isDigitChar = a ++ r.takeWhile isDigitChar := by
  induction a with
  | nil => rfl
  | cons c a ih =>
    have hc : isDigitChar c = true := ha c (List.mem_cons_self c a)
    simp [List.takeWhile, hc, ih (fun x hx => ha x (List.mem_cons_of_mem _ hx))]

lemma dropWhile_digits_append {a : List Char} (r : List Char)
    (ha : ∀ c ∈ a, isDigitChar c = true) :
    (a ++ r).dropWhile isDigitChar = r.dropWhile isDigitChar := by
  induction a with
  | nil => rfl
  | cons c a ih =>
    have hc : isDigitChar c = true := ha c (List.mem_cons_self c a)
    simp [List.dropWhile, hc, ih (fun x hx => ha x (List.mem_cons_of_mem _ hx))]

/-- Exact behaviour of the `(\d+\.\d+)` capture on a string that starts with
`digits.digits` followed by a non-digit: the capture is exactly that block. -/
lemma numDotNum_exact (a b s : List Char) (hae : a.isEmpty = false)
    (ha : ∀ c ∈ a, isDigitChar c = true) (hbe : b.isEmpty = false)
    (hb : ∀ c ∈ b, isDigitChar c = true) (hs : digitHead s = false) :
    numDotNum (a ++ ('.' :: (b ++ s))) = some (a ++ '.' :: b) := by
  have hdot : isDigitChar '.' = false := by decide
  have h1 : (a ++ ('.' :: (b ++ s))).takeWhile isDigitChar = a := by
    rw [takeWhile_digits_append _ ha]
    simp [List.takeWhile, hdot]
  have h2 : (a ++ ('.' :: (b ++ s))).dropWhile isDigitChar = '.' :: (b ++ s) := by
    rw [dropWhile_digits_append _ ha]
    simp [List.dropWhile, hdot]
  have h3 : (b ++ s).takeWhile isDigitChar = b := by
    rw [takeWhile_digits_append _ hb, takeWhile_digit_nil hs, List.append_nil]
  simp [numDotNum, h1, h2, h3, hae, hbe]

/-- Exact behaviour of the `(\d+[._]\d+[._]\d+)` capture on a string that
starts with a full separated digit triple followed by a non-digit. -/
lemma numTriple_exact (a b c s : List Char) (c1 c2 : Char)
    (hae : a.isEmpty = false) (ha : ∀ x ∈ a, isDigitChar x = true)
    (hbe : b.isEmpty = false) (hb : ∀ x ∈ b, isDigitChar x = true)
    (hce : c.isEmpty = false) (hc : ∀ x ∈ c, isDigitChar x = true)
    (hc1 : (c1 == '.' || c1 == '_') = true) (hc2 : (c2 == '.' || c2 == '_') = true)
    (hs : digitHead s = false) :
    numTriple (a ++ (c1 :: (b ++ (c2 :: (c ++ s))))) =
      some (a ++ c1 :: (b ++ c2 :: c)) := by
  have hd1 : isDigitChar c1 = false := by
    rcases Bool.or_eq_true _ _ |>.mp hc1 with h | h
    · rw [eq_of_beq h]; decide
    · rw [eq_of_beq h]; decide
  have hd2 : isDigitChar c2 = false := by
    rcases Bool.or_eq_true _ _ |>.mp hc2 with h | h
    · rw [eq_of_beq h]; decide
    · rw [eq_of_beq h]; decide
  have h1 : (a ++ (c1 :: (b ++ (c2 :: (c ++ s))))).takeWhile isDigitChar = a := by
    rw [takeWhile_digits_append _ ha]
    simp [List.takeWhile, hd1]
  have h2 : (a ++ (c1 :: (b ++ (c2 :: (c ++ s))))).dropWhile isDigitChar =
      c1 :: (b ++ (c2 :: (c ++ s))) := by
    rw [dropWhile_digits_append _ ha]
    simp [List.dropWhile, hd1]
  have h3 : (b ++ (c2 :: (c ++ s))).takeWhile isDigitChar = b := by
    rw [takeWhile_digits_append _ hb]
    simp [List.takeWhile, hd2]
  have h4 : (b ++ (c2 :: (c ++ s))).dropWhile isDigitChar = c2 :: (c ++ s) := by
    rw [dropWhile_digits_append _ hb]
    simp [List.dropWhile, hd2]
  have h5 : (c ++ s).takeWhile isDigitChar = c := by
    rw [takeWhile_digits_append _ hc, takeWhile_digit_nil hs, List.append_nil]
  simp [numTriple, h1, h2, h3, h4, h5, hae, hbe, hce, hc1, hc2]

/-! Lemmas about the resolver loop. -/

lemma jsTruthy_none : jsTruthy none = false := rfl

lemma jsTruthy_some (s : String) : jsTruthy (some s) = (s != "") := rfl

/-- First-success short-circuit: with every earlier service failing and one
service yielding a parsed body, the loop returns the normalized record of that service
record and fetches exactly the entries up to and including it. -/
lemma gather_first_success (pre : List (String × FetchOutcome)) (url : String)
    (fo : FetchOutcome) (o : IpJson) (post : List (String × FetchOutcome))
    (hpre : ∀ e ∈ pre, attemptService e.2 = none) (hfo : attemptService fo = some o) :
    gatherNetworkInfo (pre ++ (url, fo) :: post) =
      (mkNetwork url o, pre.map (fun e => e.1) ++ [url]) := by
  induction pre with
  | nil => simp [gatherNetworkInfo, hfo]
  | cons e pre ih =>
    obtain ⟨u, f⟩ := e
    have hf : attemptService f = none := hpre (u, f) (List.mem_cons_self _ _)
    have ih' := ih (fun x hx => hpre x (List.mem_cons_of_mem _ hx))
    simp [gatherNetworkInfo, hf, ih']

/-- Exhaustion: when every service fails, the loop falls through to the
failure record, having fetched every entry. -/
lemma gather_all_fail (services : List (String × FetchOutcome))
    (h : ∀ e ∈ services, attemptService e.2 = none) :
    gatherNetworkInfo services = (failureNetworkData, services.map (fun e => e.1)) := by
  induction services with
  | nil => rfl
  | cons e rest ih =>
    obtain ⟨u, f⟩ := e
    have hf : attemptService f = none := h (u, f) (List.mem_cons_self _ _)
    have ih' := ih (fun x hx => h x (List.mem_cons_of_mem _ hx))
    simp [gatherNetworkInfo, hf, ih']

/-- The fetch trace is always a prefix of the configured list, in order: each
entry is requested at most once and never out of order. -/
lemma gather_trace_take (services : List (String × FetchOutcome)) :
    ∃ k, (gatherNetworkInfo services).2 = (services.map (fun e => e.1)).take k := by
  induction services with
  | nil => exact ⟨0, rfl⟩
  | cons e rest ih =>
    obtain ⟨u, f⟩ := e
    cases hf : attemptService f with
    | some o => exact ⟨1, by simp [gatherNetworkInfo, hf]⟩
    | none =>
      obtain ⟨k, hk⟩ := ih
      exact ⟨k + 1, by simp [gatherNetworkInfo, hf, hk]⟩

/-! Claim theorems. -/

/-- Claim C5: on the empty user-agent string the classifier (a total function,
so it cannot raise) resolves every output field — browser name and version,
engine name and version, operating system, OS version, architecture — to
the "Unknown" sentinel. -/
theorem c5_empty_ua_all_unknown :
    classify "".data =
      { browserName := "Unknown", browserVersion := "Unknown",
        engineName := "Unknown", engineVersion := "Unknown",
        operatingSystem := "Unknown", osVersion := "Unknown",
        architecture := "Unknown" } := by
  decide

/-- Claim C8: classification is a pure function of the user-agent string:
any two navigator snapshots agreeing on `userAgent` — whatever their other
fields — classify to byte-identical output in every field, and in particular
two calls on the same input agree. -/
theorem c8_classification_pure (n₁ n₂ : NavigatorSnapshot)
    (h : n₁.userAgent = n₂.userAgent) :
    classifyNavigator n₁ = classifyNavigator n₂ := by
  unfold classifyNavigator
  rw [h]

theorem c8_classification_pure_witness :
    ({ userAgent := "Mozilla/5.0 (X11; Linux x86_64) Firefox/115.0".data,
       vendor := "Google Inc.", platform := "Win32", language := "en-US",
       cookieEnabled := true } : NavigatorSnapshot).userAgent =
      ({ userAgent := "Mozilla/5.0 (X11; Linux x86_64) Firefox/115.0".data,
         vendor := "", platform := "MacIntel", language := "it-IT",
         cookieEnabled := false } : NavigatorSnapshot).userAgent ∧
    classifyNavigator
        { userAgent := "Mozilla/5.0 (X11; Linux x86_64) Firefox/115.0".data,
          vendor := "Google Inc.", platform := "Win32", language := "en-US",
          cookieEnabled := true } =
      classifyNavigator
        { userAgent := "Mozilla/5.0 (X11; Linux x86_64) Firefox/115.0".data,
          vendor := "", platform := "MacIntel", language := "it-IT",
          cookieEnabled := false } :=
  ⟨rfl, c8_classification_pure _ _ rfl⟩

/-- Claim C10: whenever the browser name classifies as Chromium or Internet
Explorer, the browser version is the "Unknown" sentinel: the version switch
has no capture pattern for these two names and falls to its default. -/
theorem c10_no_version_for_chromium_ie (ua : List Char)
    (h : getBrowserName ua = "Chromium" ∨ getBrowserName ua = "Internet Explorer") :
    getBrowserVersion ua = "Unknown" := by
  rcases h with h | h <;> simp [getBrowserVersion, h]

theorem c10_no_version_for_chromium_ie_witness :
    (getBrowserName "Mozilla/5.0 Chromium/99.0 (KHTML)".data = "Chromium" ∧
      getBrowserVersion "Mozilla/5.0 Chromium/99.0 (KHTML)".data = "Unknown") ∧
    (getBrowserName "Mozilla/5.0 (Windows NT 10.0; Trident/7.0; rv:11.0)".data =
        "Internet Explorer" ∧
      getBrowserVersion "Mozilla/5.0 (Windows NT 10.0; Trident/7.0; rv:11.0)".data =
        "Unknown") :=
  ⟨⟨by decide, c10_no_version_for_chromium_ie _ (Or.inl (by decide))⟩,
   ⟨by decide, c10_no_version_for_chromium_ie _ (Or.inr (by decide))⟩⟩

/-- Claim C3: when every entry of the service list fails (its fetch rejects
or its body does not parse), the resolver — a total function, so it never
throws — returns the terminal failure record: a fixed human-readable reason in
`error`, the fixed placeholder (never a guessed or partial IP) in `publicIP`,
and no `ipService`; it is distinguishable from every successful record, since
a success always carries `error = none` and `ipService = some url`. -/
theorem c3_all_fail_failure_marker (services : List (String × FetchOutcome))
    (h : ∀ e ∈ services, attemptService e.2 = none) :
    (gatherNetworkInfo services).1 = failureNetworkData ∧
    (gatherNetworkInfo services).1.error = some "All IP services failed" ∧
    (gatherNetworkInfo services).1.publicIP =
      "Unable to determine (CORS/Network restrictions)" ∧
    (gatherNetworkInfo services).1.ipService = none ∧
    (∀ url o, (mkNetwork url o).error = none ∧ (mkNetwork url o).ipService = some url) := by
  rw [gather_all_fail services h]
  exact ⟨rfl, rfl, rfl, rfl, fun url o => ⟨rfl, rfl⟩⟩

theorem c3_all_fail_failure_marker_witness :
    (gatherNetworkInfo
        [("https://api.ipify.org?format=json", FetchOutcome.reject "timed out"),
         ("https://httpbin.org/ip", FetchOutcome.response 503 JsonBody.malformed),
         ("https://api.myip.com", FetchOutcome.reject "network error")]).1 =
      failureNetworkData :=
  (c3_all_fail_failure_marker _ (by decide)).1

/-- Claim C2, counterexample: a non-success HTTP status does not make the
resolver advance.  `fetch` resolves on an HTTP 500 and the source never reads
the status, so a 500 response with a JSON body is accepted as the terminal
success: the record of the first service is returned and the second service is
never queried, although the claim requires advancing past the non-success
entry. -/
theorem c2_counterexample :
    (gatherNetworkInfo
        [("https://api.ipify.org?format=json",
          FetchOutcome.response 500 (JsonBody.obj { ip := some "203.0.113.9" })),
         ("https://httpbin.org/ip",
          FetchOutcome.response 200 (JsonBody.obj { ip := some "198.51.100.2" }))]).1.ipService =
      some "https://api.ipify.org?format=json" ∧
    (gatherNetworkInfo
        [("https://api.ipify.org?format=json",
          FetchOutcome.response 500 (JsonBody.obj { ip := some "203.0.113.9" })),
         ("https://httpbin.org/ip",
          FetchOutcome.response 200 (JsonBody.obj { ip := some "198.51.100.2" }))]).1.publicIP =
      "203.0.113.9" ∧
    (gatherNetworkInfo
        [("https://api.ipify.org?format=json",
          FetchOutcome.response 500 (JsonBody.obj { ip := some "203.0.113.9" })),
         ("https://httpbin.org/ip",
          FetchOutcome.response 200 (JsonBody.obj { ip := some "198.51.100.2" }))]).2 =
      ["https://api.ipify.org?format=json"] := by
  decide

/-- Claim C2, amended: for each entry the resolver issues exactly one request
(the fetch trace is always an in-order prefix of the configured list); it
advances to the next entry exactly on a rejected fetch (network error or
timeout — every rejection reason is treated identically) or on a malformed
body; the HTTP status is ignored, a response being handled the same way
whatever its status. -/
theorem c2_amended_failure_kinds :
    (∀ services : List (String × FetchOutcome),
      ∃ k, (gatherNetworkInfo services).2 = (services.map (fun e => e.1)).take k) ∧
    (∀ url reason rest,
      gatherNetworkInfo ((url, FetchOutcome.reject reason) :: rest) =
        ((gatherNetworkInfo rest).1, url :: (gatherNetworkInfo rest).2)) ∧
    (∀ url st rest,
      gatherNetworkInfo ((url, FetchOutcome.response st JsonBody.malformed) :: rest) =
        ((gatherNetworkInfo rest).1, url :: (gatherNetworkInfo rest).2)) ∧
    (∀ url reason₁ reason₂ rest,
      gatherNetworkInfo ((url, FetchOutcome.reject reason₁) :: rest) =
        gatherNetworkInfo ((url, FetchOutcome.reject reason₂) :: rest)) ∧
    (∀ url st₁ st₂ body rest,
      gatherNetworkInfo ((url, FetchOutcome.response st₁ body) :: rest) =
        gatherNetworkInfo ((url, FetchOutcome.response st₂ body) :: rest)) := by
  refine ⟨gather_trace_take, ?_, ?_, ?_, ?_⟩
  · intro url reason rest
    simp [gatherNetworkInfo, attemptService]
  · intro url st rest
    simp [gatherNetworkInfo, attemptService]
  · intro url reason₁ reason₂ rest
    simp [gatherNetworkInfo, attemptService]
  · intro url st₁ st₂ body rest
    cases body <;> simp [gatherNetworkInfo, attemptService]

/-- Claim C1: the resolver stops at the first entry whose body parses and
queries no later entry; the IP of the returned record is taken from the response
fields in the priority order `ip`, `origin`, `query` (a field counting as
present when it holds a non-empty string, the source testing JavaScript
truthiness); `ipService` is the URL of the succeeding entry; and each
enrichment field is present in the result only when present in that
response. -/
theorem c1_first_valid_response_wins (pre : List (String × FetchOutcome)) (url : String)
    (fo : FetchOutcome) (o : IpJson) (post : List (String × FetchOutcome))
    (hpre : ∀ e ∈ pre, attemptService e.2 = none)
    (hfo : attemptService fo = some o) :
    (gatherNetworkInfo (pre ++ (url, fo) :: post)).2 = pre.map (fun e => e.1) ++ [url] ∧
    (gatherNetworkInfo (pre ++ (url, fo) :: post)).1.ipService = some url ∧
    (∀ v, o.ip = some v → v ≠ "" →
      (gatherNetworkInfo (pre ++ (url, fo) :: post)).1.publicIP = v) ∧
    (jsTruthy o.ip = false → ∀ v, o.origin = some v → v ≠ "" →
      (gatherNetworkInfo (pre ++ (url, fo) :: post)).1.publicIP = v) ∧
    (jsTruthy o.ip = false → jsTruthy o.origin = false → ∀ v, o.query = some v → v ≠ "" →
      (gatherNetworkInfo (pre ++ (url, fo) :: post)).1.publicIP = v) ∧
    ((gatherNetworkInfo (pre ++ (url, fo) :: post)).1.country.isSome → o.country.isSome) ∧
    ((gatherNetworkInfo (pre ++ (url, fo) :: post)).1.city.isSome → o.city.isSome) ∧
    ((gatherNetworkInfo (pre ++ (url, fo) :: post)).1.region.isSome → o.region.isSome) ∧
    ((gatherNetworkInfo (pre ++ (url, fo) :: post)).1.organization.isSome → o.org.isSome) ∧
    ((gatherNetworkInfo (pre ++ (url, fo) :: post)).1.autonomous_system.isSome →
      o.as.isSome) := by
  rw [gather_first_success pre url fo o post hpre hfo]
  refine ⟨rfl, rfl, ?_, ?_, ?_, ?_, ?_, ?_, ?_, ?_⟩
  · intro v hv hne
    simp [mkNetwork, publicIPOf, hv, jsTruthy_some, hne]
  · intro hip v hv hne
    simp [mkNetwork, publicIPOf, hip, hv, jsTruthy_some, hne]
  · intro hip hor v hv hne
    simp [mkNetwork, publicIPOf, hip, hor, hv, jsTruthy_some, hne]
  · cases hc : o.country <;> simp [mkNetwork, jsTruthy, hc]
  · cases hc : o.city <;> simp [mkNetwork, jsTruthy, hc]
  · cases hc : o.region <;> simp [mkNetwork, jsTruthy, hc]
  · cases hc : o.org <;> simp [mkNetwork, jsTruthy, hc]
  · cases hc : o.as <;> simp [mkNetwork, jsTruthy, hc]

/-- Claim C1, witness: entry 1 times out, entry 2 answers
`{ "origin": "203.0.113.5" }` — the result is a success with that IP, sourced
from entry 2, with no enrichment fields, and entry 2 ends the trace. -/
theorem c1_first_valid_response_wins_witness :
    (gatherNetworkInfo
        [("https://api.ipify.org?format=json", FetchOutcome.reject "timed out"),
         ("https://httpbin.org/ip",
          FetchOutcome.response 200 (JsonBody.obj { origin := some "203.0.113.5" }))]).1.publicIP =
      "203.0.113.5" ∧
    (gatherNetworkInfo
        [("https://api.ipify.org?format=json", FetchOutcome.reject "timed out"),
         ("https://httpbin.org/ip",
          FetchOutcome.response 200 (JsonBody.obj { origin := some "203.0.113.5" }))]).1.ipService =
      some "https://httpbin.org/ip" ∧
    (gatherNetworkInfo
        [("https://api.ipify.org?format=json", FetchOutcome.reject "timed out"),
         ("https://httpbin.org/ip",
          FetchOutcome.response 200 (JsonBody.obj { origin := some "203.0.113.5" }))]).1.country =
      none ∧
    (gatherNetworkInfo
        [("https://api.ipify.org?format=json", FetchOutcome.reject "timed out"),
         ("https://httpbin.org/ip",
          FetchOutcome.response 200 (JsonBody.obj { origin := some "203.0.113.5" }))]).1.city =
      none ∧
    (gatherNetworkInfo
        [("https://api.ipify.org?format=json", FetchOutcome.reject "timed out"),
         ("https://httpbin.org/ip",
          FetchOutcome.response 200 (JsonBody.obj { origin := some "203.0.113.5" }))]).2 =
      ["https://api.ipify.org?format=json", "https://httpbin.org/ip"] := by
  have h := c1_first_valid_response_wins
    [("https://api.ipify.org?format=json", FetchOutcome.reject "timed out")]
    "https://httpbin.org/ip"
    (FetchOutcome.response 200 (JsonBody.obj { origin := some "203.0.113.5" }))
    { origin := some "203.0.113.5" } [] (by decide) rfl
  exact ⟨h.2.2.2.1 rfl "203.0.113.5" rfl (by decide), h.2.1, by decide, by decide, h.1⟩

/-- Claim C9: a body that parses as JSON but carries none of the keys `ip`,
`origin`, `query` is still the terminal success: iteration stops there (no
later entry is queried), the URL of that service is recorded as the source, the
public-IP field is the placeholder "Unable to determine", and no failure
record is produced (`error` stays unset). -/
theorem c9_keyless_json_is_success (pre : List (String × FetchOutcome)) (url : String)
    (st : Nat) (o : IpJson) (post : List (String × FetchOutcome))
    (hpre : ∀ e ∈ pre, attemptService e.2 = none)
    (hip : o.ip = none) (hor : o.origin = none) (hq : o.query = none) :
    (gatherNetworkInfo
        (pre ++ (url, FetchOutcome.response st (JsonBody.obj o)) :: post)).1.publicIP =
      "Unable to determine" ∧
    (gatherNetworkInfo
        (pre ++ (url, FetchOutcome.response st (JsonBody.obj o)) :: post)).1.ipService =
      some url ∧
    (gatherNetworkInfo
        (pre ++ (url, FetchOutcome.response st (JsonBody.obj o)) :: post)).1.error = none ∧
    (gatherNetworkInfo
        (pre ++ (url, FetchOutcome.response st (JsonBody.obj o)) :: post)).2 =
      pre.map (fun e => e.1) ++ [url] := by
  rw [gather_first_success pre url (FetchOutcome.response st (JsonBody.obj o)) o post hpre
    rfl]
  refine ⟨?_, rfl, rfl, rfl⟩
  simp [mkNetwork, publicIPOf, hip, hor, hq, jsTruthy_none]

theorem c9_keyless_json_is_success_witness :
    (gatherNetworkInfo
        [("https://api.ipify.org?format=json", FetchOutcome.reject "network error"),
         ("https://httpbin.org/ip", FetchOutcome.response 200 (JsonBody.obj {})),
         ("https://api.myip.com",
          FetchOutcome.response 200 (JsonBody.obj { ip := some "203.0.113.9" }))]).1.publicIP =
      "Unable to determine" ∧
    (gatherNetworkInfo
        [("https://api.ipify.org?format=json", FetchOutcome.reject "network error"),
         ("https://httpbin.org/ip", FetchOutcome.response 200 (JsonBody.obj {})),
         ("https://api.myip.com",
          FetchOutcome.response 200 (JsonBody.obj { ip := some "203.0.113.9" }))]).1.ipService =
      some "https://httpbin.org/ip" ∧
    (gatherNetworkInfo
        [("https://api.ipify.org?format=json", FetchOutcome.reject "network error"),
         ("https://httpbin.org/ip", FetchOutcome.response 200 (JsonBody.obj {})),
         ("https://api.myip.com",
          FetchOutcome.response 200 (JsonBody.obj { ip := some "203.0.113.9" }))]).1.error =
      none ∧
    (gatherNetworkInfo
        [("https://api.ipify.org?format=json", FetchOutcome.reject "network error"),
         ("https://httpbin.org/ip", FetchOutcome.response 200 (JsonBody.obj {})),
         ("https://api.myip.com",
          FetchOutcome.response 200 (JsonBody.obj { ip := some "203.0.113.9" }))]).2 =
      ["https://api.ipify.org?format=json", "https://httpbin.org/ip"] :=
  c9_keyless_json_is_success
    [("https://api.ipify.org?format=json", FetchOutcome.reject "network error")]
    "https://httpbin.org/ip" 200 {}
    [("https://api.myip.com",
      FetchOutcome.response 200 (JsonBody.obj { ip := some "203.0.113.9" }))]
    (by decide) rfl rfl rfl

/-- Claim C4, counterexample: the claim omits the Firefox exclusion.  This UA
contains `"Chrome/120.0"`, the `"Chrome"` and `"Safari"` tokens, and none of
`"Chromium"`, `"Edge"`, `"OPR"`, `"Opera"`, so the claim requires browser
name Chrome and version "120.0"; but the Firefox test precedes the Chrome
test, so the code classifies it as Firefox with version "99.0". -/
theorem c4_counterexample :
    jsIncludes "Chrome/120.0".data "Firefox/99.0 Chrome/120.0 Safari/537.36".data = true ∧
    jsIncludes "Chrome".data "Firefox/99.0 Chrome/120.0 Safari/537.36".data = true ∧
    jsIncludes "Safari".data "Firefox/99.0 Chrome/120.0 Safari/537.36".data = true ∧
    jsIncludes "Chromium".data "Firefox/99.0 Chrome/120.0 Safari/537.36".data = false ∧
    jsIncludes "Edge".data "Firefox/99.0 Chrome/120.0 Safari/537.36".data = false ∧
    jsIncludes "OPR".data "Firefox/99.0 Chrome/120.0 Safari/537.36".data = false ∧
    jsIncludes "Opera".data "Firefox/99.0 Chrome/120.0 Safari/537.36".data = false ∧
    getBrowserName "Firefox/99.0 Chrome/120.0 Safari/537.36".data ≠ "Chrome" ∧
    getBrowserName "Firefox/99.0 Chrome/120.0 Safari/537.36".data = "Firefox" ∧
    getBrowserVersion "Firefox/99.0 Chrome/120.0 Safari/537.36".data = "99.0" := by
  decide

/-- Claim C4, amended: (a) every UA containing `"Chrome"` but neither
`"Chromium"` nor `"Firefox"` classifies as Chrome (this covers the
Chrome-and-Safari case: the Chrome check precedes the Safari-exclusive
check); (b) if moreover the first occurrence in the UA of `"Chrome/"` is the one
immediately followed by `"120.0"` and no further digit, the version is
"120.0" (the version capture takes the leftmost `Chrome/x.y` match, greedily,
so an earlier occurrence or a longer digit run would change it). -/
theorem c4_amended_chrome_detection :
    (∀ ua, jsIncludes "Chrome".data ua = true → jsIncludes "Chromium".data ua = false →
      jsIncludes "Firefox".data ua = false → getBrowserName ua = "Chrome") ∧
    (∀ p s, jsIncludes "Chromium".data (p ++ ("Chrome/120.0".data ++ s)) = false →
      jsIncludes "Firefox".data (p ++ ("Chrome/120.0".data ++ s)) = false →
      (∀ i, i < p.length →
        "Chrome/".data.isPrefixOf ((p ++ ("Chrome/120.0".data ++ s)).drop i) = false) →
      digitHead s = false →
      getBrowserName (p ++ ("Chrome/120.0".data ++ s)) = "Chrome" ∧
      getBrowserVersion (p ++ ("Chrome/120.0".data ++ s)) = "120.0") := by
  have hname : ∀ ua, jsIncludes "Chrome".data ua = true →
      jsIncludes "Chromium".data ua = false → jsIncludes "Firefox".data ua = false →
      getBrowserName ua = "Chrome" := by
    intro ua h1 h2 h3
    simp [getBrowserName, h1, h2, h3]
  have hver : ∀ ua, getBrowserName ua = "Chrome" →
      matchUA "Chrome/".data numDotNum ua = some "120.0".data →
      getBrowserVersion ua = "120.0" := by
    intro ua h1 h2
    simp [getBrowserVersion, h1, h2, optVer]
  refine ⟨hname, ?_⟩
  intro p s hCm hFx hfirst hs
  have hCh : jsIncludes "Chrome".data (p ++ ("Chrome/120.0".data ++ s)) = true := by
    have h := jsIncludes_of_append "Chrome".data p ("/120.0".data ++ s)
    exact h
  have hbn := hname _ hCh hCm hFx
  refine ⟨hbn, ?_⟩
  refine hver _ hbn ?_
  show firstMatch (capAt "Chrome/".data numDotNum) (p ++ ("Chrome/120.0".data ++ s)) =
    some "120.0".data
  rw [firstMatch_append_of_none _ p _ (fun i hi => capAt_none _ (hfirst i hi))]
  apply firstMatch_of_some
  show numDotNum (['1', '2', '0'] ++ ('.' :: (['0'] ++ s))) =
    some (['1', '2', '0'] ++ '.' :: ['0'])
  exact numDotNum_exact ['1', '2', '0'] ['0'] s (by decide) (by decide) (by decide)
    (by decide) hs

theorem c4_amended_chrome_detection_witness :
    getBrowserName
        ("Mozilla/5.0 ".data ++ ("Chrome/120.0".data ++ " Safari/537.36".data)) =
      "Chrome" ∧
    getBrowserVersion
        ("Mozilla/5.0 ".data ++ ("Chrome/120.0".data ++ " Safari/537.36".data)) =
      "120.0" :=
  c4_amended_chrome_detection.2 "Mozilla/5.0 ".data " Safari/537.36".data
    (by decide) (by decide) (by decide) (by decide)

/-- Claim C6, counterexample: this UA contains `"Mac OS X 10_15_7"` (as a
substring of `10_15_78`) and no `"Windows NT"` token, so the claim requires
OS version "10.15.7"; but the greedy version capture reads the whole digit
run and yields "10.15.78". -/
theorem c6_counterexample :
    jsIncludes "Mac OS X 10_15_7".data
        "Mozilla/5.0 (Macintosh; Intel Mac OS X 10_15_78)".data = true ∧
    jsIncludes "Windows NT".data
        "Mozilla/5.0 (Macintosh; Intel Mac OS X 10_15_78)".data = false ∧
    getOperatingSystem "Mozilla/5.0 (Macintosh; Intel Mac OS X 10_15_78)".data = "macOS" ∧
    getOSVersion "Mozilla/5.0 (Macintosh; Intel Mac OS X 10_15_78)".data = "10.15.78" ∧
    getOSVersion "Mozilla/5.0 (Macintosh; Intel Mac OS X 10_15_78)".data ≠ "10.15.7" := by
  decide

/-- Claim C6, amended: for every UA not containing `"Windows"` in which the
first occurrence of `"Mac OS X "` is the one immediately followed by
`"10_15_7"` and no further digit, the OS name is macOS and the OS version is
"10.15.7", underscores normalized to dots.  (The occurrence must be the first
and the digit run must end there because the capture takes the leftmost
`Mac OS X <triple>` match greedily.) -/
theorem c6_amended_macos_version :
    ∀ p s, jsIncludes "Windows".data (p ++ ("Mac OS X 10_15_7".data ++ s)) = false →
      (∀ i, i < p.length →
        "Mac OS X ".data.isPrefixOf ((p ++ ("Mac OS X 10_15_7".data ++ s)).drop i) =
          false) →
      digitHead s = false →
      getOperatingSystem (p ++ ("Mac OS X 10_15_7".data ++ s)) = "macOS" ∧
      getOSVersion (p ++ ("Mac OS X 10_15_7".data ++ s)) = "10.15.7" := by
  have hosn : ∀ ua, jsIncludes "Windows".data ua = false →
      jsIncludes "Mac OS X".data ua = true → getOperatingSystem ua = "macOS" := by
    intro ua hW hM
    have h1 : jsIncludes "Windows NT 10.0".data ua = false :=
      jsIncludes_mono_false (by decide) hW
    have h2 : jsIncludes "Windows NT 6.3".data ua = false :=
      jsIncludes_mono_false (by decide) hW
    have h3 : jsIncludes "Windows NT 6.2".data ua = false :=
      jsIncludes_mono_false (by decide) hW
    have h4 : jsIncludes "Windows NT 6.1".data ua = false :=
      jsIncludes_mono_false (by decide) hW
    simp [getOperatingSystem, h1, h2, h3, h4, hW, hM]
  have hosv : ∀ ua, jsIncludes "Windows NT ".data ua = false →
      matchUA "Mac OS X ".data numTriple ua = some "10_15_7".data →
      getOSVersion ua = "10.15.7" := by
    intro ua h1 h2
    have hw : matchUA "Windows NT ".data numDotNum ua = none :=
      firstMatch_capAt_none _ h1
    unfold getOSVersion
    rw [hw, h2]
    show String.mk (underscoresToDots "10_15_7".data) = "10.15.7"
    decide
  intro p s hW hfirst hs
  have hM : jsIncludes "Mac OS X".data (p ++ ("Mac OS X 10_15_7".data ++ s)) = true := by
    have h := jsIncludes_of_append "Mac OS X".data p (" 10_15_7".data ++ s)
    exact h
  refine ⟨hosn _ hW hM, ?_⟩
  refine hosv _ (jsIncludes_mono_false (by decide) hW) ?_
  show firstMatch (capAt "Mac OS X ".data numTriple) (p ++ ("Mac OS X 10_15_7".data ++ s)) =
    some "10_15_7".data
  rw [firstMatch_append_of_none _ p _ (fun i hi => capAt_none _ (hfirst i hi))]
  apply firstMatch_of_some
  show numTriple (['1', '0'] ++ ('_' :: (['1', '5'] ++ ('_' :: (['7'] ++ s))))) =
    some (['1', '0'] ++ '_' :: (['1', '5'] ++ '_' :: ['7']))
  exact numTriple_exact ['1', '0'] ['1', '5'] ['7'] s '_' '_' (by decide) (by decide)
    (by decide) (by decide) (by decide) (by decide) (by decide) (by decide) hs

theorem c6_amended_macos_version_witness :
    getOperatingSystem
        ("Mozilla/5.0 (Macintosh; Intel ".data ++ ("Mac OS X 10_15_7".data ++ ")".data)) =
      "macOS" ∧
    getOSVersion
        ("Mozilla/5.0 (Macintosh; Intel ".data ++ ("Mac OS X 10_15_7".data ++ ")".data)) =
      "10.15.7" :=
  c6_amended_macos_version "Mozilla/5.0 (Macintosh; Intel ".data ")".data (by decide)
    (by decide) (by decide)

/-- Claim C7, counterexample: this UA contains `"Android 13.0"`, but the
Linux test precedes the Android test in `getOperatingSystem` and real Android
user agents carry a `"Linux"` token, so the OS name resolves to "Linux", not
"Android", contradicting the claim. -/
theorem c7_counterexample :
    jsIncludes "Android 13.0".data
        "Mozilla/5.0 (Linux; Android 13.0; Pixel 7)".data = true ∧
    getOperatingSystem "Mozilla/5.0 (Linux; Android 13.0; Pixel 7)".data = "Linux" ∧
    getOperatingSystem "Mozilla/5.0 (Linux; Android 13.0; Pixel 7)".data ≠ "Android" ∧
    getOSVersion "Mozilla/5.0 (Linux; Android 13.0; Pixel 7)".data = "13.0" := by
  decide

/-- Claim C7, amended: for every UA containing none of `"Windows"`,
`"Mac OS X"`, `"Linux"` in which the first occurrence of `"Android "` is the
one immediately followed by `"13.0"` and no further digit, the OS name is
Android and the OS version is "13.0". -/
theorem c7_amended_android_version :
    ∀ p s, jsIncludes "Windows".data (p ++ ("Android 13.0".data ++ s)) = false →
      jsIncludes "Mac OS X".data (p ++ ("Android 13.0".data ++ s)) = false →
      jsIncludes "Linux".data (p ++ ("Android 13.0".data ++ s)) = false →
      (∀ i, i < p.length →
        "Android ".data.isPrefixOf ((p ++ ("Android 13.0".data ++ s)).drop i) = false) →
      digitHead s = false →
      getOperatingSystem (p ++ ("Android 13.0".data ++ s)) = "Android" ∧
      getOSVersion (p ++ ("Android 13.0".data ++ s)) = "13.0" := by
  have hosn : ∀ ua, jsIncludes "Windows".data ua = false →
      jsIncludes "Mac OS X".data ua = false → jsIncludes "Linux".data ua = false →
      jsIncludes "Android".data ua = true → getOperatingSystem ua = "Android" := by
    intro ua hW hM hL hA
    have h1 : jsIncludes "Windows NT 10.0".data ua = false :=
      jsIncludes_mono_false (by decide) hW
    have h2 : jsIncludes "Windows NT 6.3".data ua = false :=
      jsIncludes_mono_false (by decide) hW
    have h3 : jsIncludes "Windows NT 6.2".data ua = false :=
      jsIncludes_mono_false (by decide) hW
    have h4 : jsIncludes "Windows NT 6.1".data ua = false :=
      jsIncludes_mono_false (by decide) hW
    simp [getOperatingSystem, h1, h2, h3, h4, hW, hM, hL, hA]
  have hosv : ∀ ua, jsIncludes "Windows NT ".data ua = false →
      jsIncludes "Mac OS X ".data ua = false →
      matchUA "Android ".data numDotNum ua = some "13.0".data →
      getOSVersion ua = "13.0" := by
    intro ua h1 h2 h3
    have hw : matchUA "Windows NT ".data numDotNum ua = none :=
      firstMatch_capAt_none _ h1
    have hm : matchUA "Mac OS X ".data numTriple ua = none :=
      firstMatch_capAt_none _ h2
    unfold getOSVersion
    rw [hw, hm, h3]
  intro p s hW hM hL hfirst hs
  have hA : jsIncludes "Android".data (p ++ ("Android 13.0".data ++ s)) = true := by
    have h := jsIncludes_of_append "Android".data p (" 13.0".data ++ s)
    exact h
  refine ⟨hosn _ hW hM hL hA, ?_⟩
  refine hosv _ (jsIncludes_mono_false (by decide) hW)
    (jsIncludes_mono_false (by decide) hM) ?_
  show firstMatch (capAt "Android ".data numDotNum) (p ++ ("Android 13.0".data ++ s)) =
    some "13.0".data
  rw [firstMatch_append_of_none _ p _ (fun i hi => capAt_none _ (hfirst i hi))]
  apply firstMatch_of_some
  show numDotNum (['1', '3'] ++ ('.' :: (['0'] ++ s))) = some (['1', '3'] ++ '.' :: ['0'])
  exact numDotNum_exact ['1', '3'] ['0'] s (by decide) (by decide) (by decide) (by decide) hs

theorem c7_amended_android_version_witness :
    getOperatingSystem ("Mozilla/5.0 (".data ++ ("Android 13.0".data ++ "; Pixel 7)".data)) =
      "Android" ∧
    getOSVersion ("Mozilla/5.0 (".data ++ ("Android 13.0".data ++ "; Pixel 7)".data)) =
      "13.0" :=
  c7_amended_android_version "Mozilla/5.0 (".data "; Pixel 7)".data (by decide) (by decide)
    (by decide) (by decide) (by decide)
